import Mathlib

/-!
Verification of the ISS ETL script (`mywork/lab4/iss.py`).

The script is a three-stage pipeline:
  * `extract`   — one HTTP GET, JSON parse, audit-file write on success;
  * `transform` — projects four fields out of the raw JSON into one flat
                  record, converting the epoch-seconds timestamp into a
                  calendar datetime (`pd.to_datetime(_, unit='s')`);
  * `load`      — appends the record to a CSV file, writing the header only
                  when the file is created;
  * `main`      — orchestrates the three and fixes the exit codes.

We embed each function shallowly: network and filesystem effects become
explicit values (a `NetOutcome` for the single HTTP request, an
`Option (List String)` for the CSV file contents), JSON values become an
inductive type, and Python exceptions become `Except` / `Option` results.
-/

namespace ISS

/-- JSON values as returned by the `iss-now` endpoint and handled by the
script: strings, (nonnegative integer) numbers — the only number the script
touches is the Unix timestamp, an integer number of seconds since the
epoch — and objects, embedded as association lists (keys unique, as
produced by a JSON parser). -/
inductive Json where
  | str : String → Json
  | num : Nat → Json
  | obj : List (String × Json) → Json

/-- `raw_data[k]` as an option: `some v` when `raw_data` is an object with
key `k`, `none` otherwise (Python would raise `KeyError` / `TypeError`,
both of which propagate unhandled out of `transform`). -/
def Json.get? : Json → String → Option Json
  | .obj kvs, k => kvs.lookup k
  | _, _ => none

/-- Two-level key path `raw_data[k1][k2]`. -/
def Json.getPath2 (j : Json) (k1 k2 : String) : Option Json :=
  (j.get? k1).bind (fun v => Json.get? v k2)

/-! ### Calendar conversion (`pd.to_datetime(_, unit='s')`)

`transform` converts the integer `timestamp` column from epoch seconds to a
calendar datetime at second resolution.  We embed that conversion as the
standard Gregorian algorithm: split off the seconds within the day, then
scan years from 1970 and months from January, subtracting the length of
each.  The scans are written with an explicit fuel argument so that they
are structurally recursive (and hence evaluate inside the kernel); fuel
`d + 1` always suffices because every step consumes at least one day. -/

structure DateTime where
  year : Nat
  month : Nat
  day : Nat
  hour : Nat
  minute : Nat
  second : Nat
deriving DecidableEq

def isLeap (y : Nat) : Bool :=
  (y % 4 == 0 && y % 100 != 0) || y % 400 == 0

def daysInYear (y : Nat) : Nat :=
  if isLeap y then 366 else 365

def daysInMonth (y m : Nat) : Nat :=
  if m = 2 then (if isLeap y then 29 else 28)
  else if m = 4 ∨ m = 6 ∨ m = 9 ∨ m = 11 then 30
  else 31

/-- Year scan: starting at year `y` with `d` days remaining, subtract whole
years until fewer than a year of days remains.  Returns the final year and
the day-of-year. -/
def yearScan : Nat → Nat → Nat → Nat × Nat
  | 0, y, d => (y, d)
  | fuel + 1, y, d =>
    if d < daysInYear y then (y, d)
    else yearScan fuel (y + 1) (d - daysInYear y)

/-- Month scan: starting at month `m` of year `y` with `d` days remaining,
subtract whole months.  Returns the final month and the day-of-month
(0-based). -/
def monthScan : Nat → Nat → Nat → Nat → Nat × Nat
  | 0, _, m, d => (m, d)
  | fuel + 1, y, m, d =>
    if d < daysInMonth y m then (m, d)
    else monthScan fuel y (m + 1) (d - daysInMonth y m)

/-- Epoch seconds to calendar datetime, as `pd.to_datetime(_, unit='s')`
produces (naive UTC, second resolution). -/
def epochToDateTime (t : Nat) : DateTime :=
  let days := t / 86400
  let rem := t % 86400
  let yd := yearScan (days + 1) 1970 days
  let md := monthScan (yd.2 + 1) yd.1 1 yd.2
  ⟨yd.1, md.1, md.2 + 1, rem / 3600, rem % 3600 / 60, rem % 60⟩

/-- Total days in the `n` consecutive years `y, y+1, …, y+n-1`. -/
def yearsSum (y : Nat) : Nat → Nat
  | 0 => 0
  | n + 1 => yearsSum y n + daysInYear (y + n)

/-- Total days in the `n` consecutive months `m, m+1, …, m+n-1` of year
`y`. -/
def monthsSum (y m : Nat) : Nat → Nat
  | 0 => 0
  | n + 1 => monthsSum y m n + daysInMonth y (m + n)

/-- Independent inverse: calendar datetime back to epoch seconds (days
since 1970-01-01, converted to seconds, plus the time of day). -/
def dateTimeToEpoch (dt : DateTime) : Nat :=
  (yearsSum 1970 (dt.year - 1970) + monthsSum dt.year 1 (dt.month - 1)
      + (dt.day - 1)) * 86400
    + dt.hour * 3600 + dt.minute * 60 + dt.second

lemma daysInYear_pos (y : Nat) : 0 < daysInYear y := by
  unfold daysInYear; split <;> omega

lemma daysInMonth_pos (y m : Nat) : 0 < daysInMonth y m := by
  unfold daysInMonth; split
  · split <;> omega
  · split <;> omega

lemma yearsSum_succ_left (y n : Nat) :
    yearsSum y (n + 1) = daysInYear y + yearsSum (y + 1) n := by
  induction n with
  | zero => simp [yearsSum]
  | succ n ih =>
    calc yearsSum y (n + 1 + 1)
        = yearsSum y (n + 1) + daysInYear (y + (n + 1)) := rfl
      _ = daysInYear y + yearsSum (y + 1) n + daysInYear (y + 1 + n) := by
          rw [ih]; ring_nf
      _ = daysInYear y + yearsSum (y + 1) (n + 1) := by
          simp [yearsSum]; ring

lemma monthsSum_succ_left (y m n : Nat) :
    monthsSum y m (n + 1) = daysInMonth y m + monthsSum y (m + 1) n := by
  induction n with
  | zero => simp [monthsSum]
  | succ n ih =>
    calc monthsSum y m (n + 1 + 1)
        = monthsSum y m (n + 1) + daysInMonth y (m + (n + 1)) := rfl
      _ = daysInMonth y m + monthsSum y (m + 1) n
            + daysInMonth y (m + 1 + n) := by rw [ih]; ring_nf
      _ = daysInMonth y m + monthsSum y (m + 1) (n + 1) := by
          simp [monthsSum]; ring

/-- The year scan preserves the total number of days: the days in the years
crossed over plus the residual day-of-year recover the input. -/
lemma yearScan_sum (fuel : Nat) :
    ∀ y d, d < fuel →
      y ≤ (yearScan fuel y d).1 ∧
      yearsSum y ((yearScan fuel y d).1 - y) + (yearScan fuel y d).2 = d := by
  induction fuel with
  | zero => intro y d h; omega
  | succ fuel ih =>
    intro y d h
    show y ≤ (yearScan (fuel + 1) y d).1 ∧ _
    rw [yearScan]
    by_cases hd : d < daysInYear y
    · simp only [hd, if_pos]
      refine ⟨Nat.le_refl y, ?_⟩
      simp [yearsSum]
    · simp only [hd, if_neg, if_false]
      have hpos := daysInYear_pos y
      have hrec : d - daysInYear y < fuel := by omega
      obtain ⟨hle, hsum⟩ := ih (y + 1) (d - daysInYear y) hrec
      refine ⟨by omega, ?_⟩
      have hyy : (yearScan fuel (y + 1) (d - daysInYear y)).1 - y
          = ((yearScan fuel (y + 1) (d - daysInYear y)).1 - (y + 1)) + 1 := by
        omega
      rw [hyy, yearsSum_succ_left]
      omega

/-- The month scan preserves the total number of days analogously. -/
lemma monthScan_sum (fuel : Nat) :
    ∀ y m d, d < fuel →
      m ≤ (monthScan fuel y m d).1 ∧
      monthsSum y m ((monthScan fuel y m d).1 - m)
        + (monthScan fuel y m d).2 = d := by
  induction fuel with
  | zero => intro y m d h; omega
  | succ fuel ih =>
    intro y m d h
    rw [monthScan]
    by_cases hd : d < daysInMonth y m
    · simp only [hd, if_pos]
      refine ⟨Nat.le_refl m, ?_⟩
      simp [monthsSum]
    · simp only [hd, if_neg, if_false]
      have hpos := daysInMonth_pos y m
      have hrec : d - daysInMonth y m < fuel := by omega
      obtain ⟨hle, hsum⟩ := ih y (m + 1) (d - daysInMonth y m) hrec
      refine ⟨by omega, ?_⟩
      have hmm : (monthScan fuel y (m + 1) (d - daysInMonth y m)).1 - m
          = ((monthScan fuel y (m + 1) (d - daysInMonth y m)).1 - (m + 1)) + 1 := by
        omega
      rw [hmm, monthsSum_succ_left]
      omega

/-- The calendar conversion is exact: converting epoch seconds to a
datetime and summing the datetime back to seconds is the identity. -/
lemma dateTimeToEpoch_epochToDateTime (t : Nat) :
    dateTimeToEpoch (epochToDateTime t) = t := by
  unfold epochToDateTime dateTimeToEpoch
  obtain ⟨hy, hysum⟩ :=
    yearScan_sum (t / 86400 + 1) 1970 (t / 86400) (by omega)
  obtain ⟨hm, hmsum⟩ :=
    monthScan_sum ((yearScan (t / 86400 + 1) 1970 (t / 86400)).2 + 1)
      (yearScan (t / 86400 + 1) 1970 (t / 86400)).1 1
      (yearScan (t / 86400 + 1) 1970 (t / 86400)).2 (by omega)
  simp only
  omega

/-! ### The flat record and `transform`

`transform` builds the dict
`{"timestamp": raw["timestamp"], "latitude": raw["iss_position"]["latitude"],
  "longitude": raw["iss_position"]["longitude"], "message": raw["message"]}`,
wraps it in a one-row DataFrame and converts the `timestamp` column with
`pd.to_datetime(_, unit='s')`.  A missing key raises (`KeyError` /
`TypeError`) before any record exists; a non-numeric timestamp makes
`pd.to_datetime` raise after the four lookups.  Both propagate unhandled,
which we embed as `Except.error`. -/

structure FlatRecord where
  timestamp : DateTime
  latitude : Json
  longitude : Json
  message : Json

/-- The unhandled errors `transform` can raise: a failed key lookup
(Python `KeyError`/`TypeError`), or `pd.to_datetime` rejecting a
non-integer `timestamp` value. -/
inductive TError where
  | missing : String → TError
  | badTimestamp : TError
deriving DecidableEq

/-- `transform` from `iss.py`: the four lookups in source order, then the
timestamp conversion. -/
def transform (raw : Json) : Except TError FlatRecord :=
  match raw.get? "timestamp" with
  | none => .error (.missing "timestamp")
  | some ts =>
    match raw.get? "iss_position" with
    | none => .error (.missing "iss_position")
    | some pos =>
      match pos.get? "latitude" with
      | none => .error (.missing "latitude")
      | some lat =>
        match pos.get? "longitude" with
        | none => .error (.missing "longitude")
        | some lon =>
          match raw.get? "message" with
          | none => .error (.missing "message")
          | some msg =>
            match ts with
            | .num t => .ok ⟨epochToDateTime t, lat, lon, msg⟩
            | _ => .error .badTimestamp

/-! ### CSV rendering and `load`

The CSV file is embedded as its list of lines.  `pandas.to_csv` renders a
string cell as the string itself and a numeric cell as its decimal
notation; a dict-valued cell would be rendered via Python `str`, which we
approximate with a bracketed key/value listing (no claim exercises it). -/

mutual

def Json.render : Json → String
  | .str s => s
  | .num n => toString n
  | .obj kvs => "\x7b" ++ Json.renderKVs kvs ++ "\x7d"

def Json.renderKVs : List (String × Json) → String
  | [] => ""
  | (k, v) :: rest =>
    match rest with
    | [] => k ++ ": " ++ v.render
    | _ => k ++ ": " ++ v.render ++ ", " ++ Json.renderKVs rest

end

def pad2 (n : Nat) : String :=
  if n < 10 then "0" ++ toString n else toString n

def pad4 (n : Nat) : String :=
  if n < 10 then "000" ++ toString n
  else if n < 100 then "00" ++ toString n
  else if n < 1000 then "0" ++ toString n
  else toString n

/-- A pandas datetime cell prints as `YYYY-MM-DD HH:MM:SS`. -/
def formatDateTime (dt : DateTime) : String :=
  pad4 dt.year ++ "-" ++ pad2 dt.month ++ "-" ++ pad2 dt.day ++ " "
    ++ pad2 dt.hour ++ ":" ++ pad2 dt.minute ++ ":" ++ pad2 dt.second

/-- The fixed header row `to_csv` writes for the one-row DataFrame. -/
def header : String := "timestamp,latitude,longitude,message"

/-- The data row `to_csv` writes for a record (`index=False`). -/
def rowString (r : FlatRecord) : String :=
  formatDateTime r.timestamp ++ "," ++ r.latitude.render ++ ","
    ++ r.longitude.render ++ "," ++ r.message.render

/-- `load` from `iss.py`, on the CSV file contents at `output_name`
(`none` = the path does not exist, `some lines` = existing contents):
if the file exists, append the one data row without a header
(`mode='a', header=False`); otherwise create it with the header row
followed by the data row.  Returns the new file contents. -/
def load (r : FlatRecord) (file : Option (List String)) : List String :=
  match file with
  | some lines => lines ++ [rowString r]
  | none => [header, rowString r]

/-- `load` called once per record, in sequence, threading the file
state. -/
def loadSeq (records : List FlatRecord) (file : Option (List String)) :
    Option (List String) :=
  records.foldl (fun f r => some (load r f)) file

/-! ### `extract` and the network -/

/-- The outcome of the single `requests.get(URL)` call:
either a connection-level failure (`requests.exceptions.RequestException`
raised by `get` itself), or a response with an HTTP status code and a
body whose JSON decoding either succeeds (`some j`) or fails (`none`). -/
inductive NetOutcome where
  | connError : NetOutcome
  | resp : Nat → Option Json → NetOutcome

/-- `extract` from `iss.py`, as a function of the network outcome.
Returns the pair (returned value, audit-file content written):
`response.raise_for_status()` raises on a 4xx/5xx status and
`response.json()` raises on a malformed body; every exception is caught,
leaving `data = None` and the audit file unwritten.  On success the parsed
JSON is dumped to the audit file and returned. -/
def extract (net : NetOutcome) : Option Json × Option Json :=
  match net with
  | .connError => (none, none)
  | .resp status body =>
    if 400 ≤ status ∧ status < 600 then (none, none)
    else
      match body with
      | none => (none, none)
      | some j => (some j, some j)

/-! ### `main` -/

/-- What a run of `main` did: the process exit code (an unhandled Python
exception also terminates the process with exit code 1), and whether
`transform` resp. `load` were invoked. -/
structure RunResult where
  exitCode : Nat
  ranTransform : Bool
  ranLoad : Bool
deriving DecidableEq

/-- `json_file = OUTPUT.replace(".csv", "") + ".json"`: Python
`str.replace` removes every (left-to-right, non-overlapping) occurrence of
`".csv"`. -/
def dropCsv : List Char → List Char
  | '.' :: 'c' :: 's' :: 'v' :: rest => dropCsv rest
  | c :: rest => c :: dropCsv rest
  | [] => []

/-- The audit-file path `main` derives from the CSV output path. -/
def auditPath (output : String) : String :=
  String.mk (dropCsv output.data) ++ ".json"

/-- Modelled from the spec: "path = CSV path with its extension replaced
by `.json`" — strip the suffix starting at the last dot, if any, and
append `.json`.  Used only to compare the claimed derivation against the
code's `auditPath`. -/
def replaceExtWithJson (p : String) : String :=
  let r := p.data.reverse.dropWhile (fun c => c ≠ '.')
  (if r = [] then p else String.mk r.tail.reverse) ++ ".json"

/-- `main` from `iss.py`, as a function of the command-line arguments
(`argv.head?` is the program name, `argv[1]?` the output path) and the
network outcome.  Missing argument: usage error, `sys.exit(1)`.  Failed
extraction: error logged, `sys.exit(1)`, transform/load never run.  A
`transform` error propagates unhandled (process exit code 1, load never
runs).  Otherwise the record is loaded and the process ends with exit
code 0. -/
def mainRun (argv : List String) (net : NetOutcome) : RunResult :=
  match argv with
  | _ :: _output :: _ =>
    match (extract net).1 with
    | none => ⟨1, false, false⟩
    | some raw =>
      match transform raw with
      | .error _ => ⟨1, true, false⟩
      | .ok _ => ⟨0, true, true⟩
  | _ => ⟨1, false, false⟩

/-- Does a character list contain an occurrence of `".csv"`?  Used to
state when the code's audit-path derivation agrees with plain extension
substitution. -/
def hasCsv : List Char → Bool
  | '.' :: 'c' :: 's' :: 'v' :: _ => true
  | _ :: rest => hasCsv rest
  | [] => false

/-- The mocked endpoint response of the end-to-end scenario:
`{"timestamp": 1609459200, "iss_position": {"latitude": "10.00",
"longitude": "20.00"}, "message": "success"}`. -/
def exampleRaw : Json :=
  .obj [("timestamp", .num 1609459200),
        ("iss_position", .obj [("latitude", .str "10.00"),
                               ("longitude", .str "20.00")]),
        ("message", .str "success")]

/-- The flat record `transform` produces from `exampleRaw`. -/
def exampleRec : FlatRecord :=
  ⟨epochToDateTime 1609459200, .str "10.00", .str "20.00", .str "success"⟩

/-- The same response with the coordinates under a top-level key
`position` instead of `iss_position`. -/
def positionRaw : Json :=
  .obj [("timestamp", .num 0),
        ("position", .obj [("latitude", .str "10.00"),
                           ("longitude", .str "20.00")]),
        ("message", .str "success")]

/-- A response whose `iss_position`/`latitude` key path is absent. -/
def missingLatRaw : Json :=
  .obj [("timestamp", .num 0), ("message", .str "x")]

/-- `exampleRaw` with its keys reordered and an extra top-level key:
it agrees with `exampleRaw` on the four key paths `transform` reads. -/
def exampleRawExtra : Json :=
  .obj [("message", .str "success"),
        ("iss_position", .obj [("latitude", .str "10.00"),
                               ("longitude", .str "20.00")]),
        ("timestamp", .num 1609459200),
        ("foo", .num 7)]

/-- Two distinct concrete flat records for exercising the loader. -/
def recA : FlatRecord :=
  ⟨epochToDateTime 0, .str "10.00", .str "20.00", .str "success"⟩

def recB : FlatRecord :=
  ⟨epochToDateTime 86400, .str "11.00", .str "21.00", .str "success"⟩

/-! ## Shared lemmas -/

/-- Sequencing `load` over an existing file appends one rendered row per
record, in order. -/
lemma loadSeq_some (records : List FlatRecord) :
    ∀ lines, loadSeq records (some lines)
      = some (lines ++ records.map rowString) := by
  induction records with
  | nil => intro lines; simp [loadSeq]
  | cons r rest ih =>
    intro lines
    show loadSeq rest (some (load r (some lines))) = _
    rw [ih]
    simp [load]

/-- `transform` succeeds exactly on the data reachable through its four
key paths: the result is determined by the values at
`timestamp`, `iss_position.latitude`, `iss_position.longitude` and
`message`, and by nothing else in the response. -/
lemma transform_ok_iff (raw : Json) (rec : FlatRecord) :
    transform raw = .ok rec ↔
      ∃ t, raw.get? "timestamp" = some (.num t)
        ∧ raw.getPath2 "iss_position" "latitude" = some rec.latitude
        ∧ raw.getPath2 "iss_position" "longitude" = some rec.longitude
        ∧ raw.get? "message" = some rec.message
        ∧ rec.timestamp = epochToDateTime t := by
  rcases hts : raw.get? "timestamp" with _ | ts
  · simp [transform, hts, Json.getPath2]
  · rcases hip : raw.get? "iss_position" with _ | pos
    · simp [transform, hts, hip, Json.getPath2]
    · rcases hlat : pos.get? "latitude" with _ | lat
      · simp [transform, hts, hip, hlat, Json.getPath2]
      · rcases hlon : pos.get? "longitude" with _ | lon
        · simp [transform, hts, hip, hlat, hlon, Json.getPath2]
        · rcases hmsg : raw.get? "message" with _ | msg
          · simp [transform, hts, hip, hlat, hlon, hmsg, Json.getPath2]
          · rcases ts with s | t | kvs
            · simp [transform, hts, hip, hlat, hlon, hmsg, Json.getPath2]
            · cases rec
              simp [transform, hts, hip, hlat, hlon, hmsg, Json.getPath2,
                FlatRecord.mk.injEq]
              constructor
              · rintro ⟨h1, h2, h3, h4⟩
                exact ⟨h2, h3, h4, h1.symm⟩
              · rintro ⟨h2, h3, h4, h1⟩
                exact ⟨h1.symm, h2, h3, h4⟩
            · simp [transform, hts, hip, hlat, hlon, hmsg, Json.getPath2]

/-- Removing every `".csv"` occurrence from `stem ++ ".csv"` gives back
`stem` whenever `stem` itself contains no `".csv"` occurrence (the
appended occurrence cannot overlap into `stem`, because the second
pattern character `c` differs from the first, `.`). -/
lemma dropCsv_append_csv (stem : List Char) (h : hasCsv stem = false) :
    dropCsv (stem ++ ['.', 'c', 's', 'v']) = stem := by
  induction stem with
  | nil => simp [dropCsv]
  | cons c s ih =>
    rcases s with _ | ⟨a, _ | ⟨b, _ | ⟨d, t⟩⟩⟩
    · by_cases hc : c = '.' <;> simp_all [dropCsv, hasCsv]
    · by_cases hc : c = '.' <;> by_cases ha : a = '.' <;>
        simp_all [dropCsv, hasCsv]
    · by_cases hc : c = '.' <;> by_cases ha : a = '.' <;> by_cases hb : b = '.' <;>
        simp_all [dropCsv, hasCsv]
    · by_cases hc : c = '.' <;> by_cases ha : a = 'c' <;> by_cases hb : b = 's' <;>
        by_cases hd : d = 'v' <;> simp_all [dropCsv, hasCsv]

/-! ## Claims -/

/-- Claim C1: whenever the single HTTP request fails — connection error,
4xx/5xx status, or a body that is not valid JSON — `extract` returns the
"no data" sentinel (`none`) and writes no audit file; conversely an audit
write happens only on a successful extraction, and its content is the
returned data. -/
theorem extract_failure_no_audit_write :
    (∀ net : NetOutcome,
      (net = NetOutcome.connError
        ∨ (∃ s b, net = NetOutcome.resp s b ∧ 400 ≤ s ∧ s < 600)
        ∨ (∃ s, net = NetOutcome.resp s none)) →
      extract net = (none, none))
    ∧ (∀ (net : NetOutcome) (j : Json),
        (extract net).2 = some j → (extract net).1 = some j) := by
  constructor
  · intro net h
    rcases h with rfl | ⟨s, b, rfl, h4, h6⟩ | ⟨s, rfl⟩
    · rfl
    · simp [extract, h4, h6]
    · simp [extract]
  · intro net j h
    cases net with
    | connError => simp [extract] at h
    | resp s b =>
      by_cases hc : 400 ≤ s ∧ s < 600
      · simp [extract, hc] at h
      · cases b with
        | none => simp [extract, hc] at h
        | some j2 =>
          simp [extract, hc] at h ⊢
          exact h

theorem extract_failure_no_audit_write_witness :
    extract (NetOutcome.resp 500 (some (Json.obj []))) = (none, none) :=
  extract_failure_no_audit_write.1 _
    (Or.inr (Or.inl ⟨500, some (Json.obj []), rfl, by omega, by omega⟩))

/-- Claim C2: if any of the four key paths `timestamp`,
`iss_position.latitude`, `iss_position.longitude`, `message` is absent
from the raw response, `transform` fails with a missing-field error
(which propagates unhandled), and in particular never returns a record
with a defaulted field. -/
theorem transform_missing_field_error (raw : Json)
    (h : raw.get? "timestamp" = none
      ∨ raw.getPath2 "iss_position" "latitude" = none
      ∨ raw.getPath2 "iss_position" "longitude" = none
      ∨ raw.get? "message" = none) :
    ∃ k, transform raw = .error (.missing k) := by
  rcases hts : raw.get? "timestamp" with _ | ts
  · exact ⟨"timestamp", by simp [transform, hts]⟩
  · rcases hip : raw.get? "iss_position" with _ | pos
    · exact ⟨"iss_position", by simp [transform, hts, hip]⟩
    · rcases hlat : pos.get? "latitude" with _ | lat
      · exact ⟨"latitude", by simp [transform, hts, hip, hlat]⟩
      · rcases hlon : pos.get? "longitude" with _ | lon
        · exact ⟨"longitude", by simp [transform, hts, hip, hlat, hlon]⟩
        · rcases hmsg : raw.get? "message" with _ | msg
          · exact ⟨"message", by simp [transform, hts, hip, hlat, hlon, hmsg]⟩
          · exfalso
            simp [Json.getPath2, hts, hip, hlat, hlon, hmsg] at h

theorem transform_missing_field_error_witness :
    ∃ k, transform missingLatRaw = .error (.missing k) :=
  transform_missing_field_error missingLatRaw (Or.inr (Or.inl rfl))

/-- Claim C3: on a well-formed response (all four key paths present,
integer timestamp) `transform` produces exactly one flat record, whose
timestamp is the epoch-seconds value converted exactly to a calendar
datetime (summing the datetime back to seconds is the identity); in
particular epoch 0 is 1970-01-01 00:00:00 and epoch 1609459200 is
2021-01-01 00:00:00. -/
theorem transform_converts_timestamp (raw : Json) (t : Nat)
    (pos lat lon msg : Json)
    (hts : raw.get? "timestamp" = some (.num t))
    (hip : raw.get? "iss_position" = some pos)
    (hlat : pos.get? "latitude" = some lat)
    (hlon : pos.get? "longitude" = some lon)
    (hmsg : raw.get? "message" = some msg) :
    transform raw = .ok ⟨epochToDateTime t, lat, lon, msg⟩
    ∧ dateTimeToEpoch (epochToDateTime t) = t
    ∧ epochToDateTime 0 = ⟨1970, 1, 1, 0, 0, 0⟩
    ∧ epochToDateTime 1609459200 = ⟨2021, 1, 1, 0, 0, 0⟩ := by
  refine ⟨?_, dateTimeToEpoch_epochToDateTime t, by decide, by decide⟩
  simp [transform, hts, hip, hlat, hlon, hmsg]

theorem transform_converts_timestamp_witness :
    transform exampleRaw
        = .ok ⟨epochToDateTime 1609459200, .str "10.00", .str "20.00",
               .str "success"⟩
    ∧ dateTimeToEpoch (epochToDateTime 1609459200) = 1609459200
    ∧ epochToDateTime 0 = ⟨1970, 1, 1, 0, 0, 0⟩
    ∧ epochToDateTime 1609459200 = ⟨2021, 1, 1, 0, 0, 0⟩ :=
  transform_converts_timestamp exampleRaw 1609459200 _ _ _ _
    rfl rfl rfl rfl rfl

/-- Claim C4: loading `N ≥ 1` records in sequence against a fresh
(non-existent) path yields exactly one header line followed by the `N`
rendered data rows in call order; loading against an existing file
appends exactly the one data row, with no header and no inspection of the
existing contents. -/
theorem load_fresh_path_header_then_rows (recs : List FlatRecord)
    (h : recs ≠ []) :
    loadSeq recs none = some (header :: recs.map rowString)
    ∧ (recs.map rowString).length = recs.length
    ∧ ∀ (lines : List String) (r : FlatRecord),
        load r (some lines) = lines ++ [rowString r] := by
  refine ⟨?_, by simp, fun lines r => rfl⟩
  rcases recs with _ | ⟨r, rest⟩
  · exact absurd rfl h
  · show loadSeq rest (some (load r none)) = _
    rw [loadSeq_some]
    simp [load]

theorem load_fresh_path_header_then_rows_witness :
    loadSeq [recA, recB] none
        = some (header :: [recA, recB].map rowString)
    ∧ ([recA, recB].map rowString).length = [recA, recB].length
    ∧ ∀ (lines : List String) (r : FlatRecord),
        load r (some lines) = lines ++ [rowString r] :=
  load_fresh_path_header_then_rows [recA, recB] (by simp)

/-- Claim C5 (counterexample): the audit path is not the CSV path with
its extension substituted.  On `"a.csv.csv"` the code yields `"a.json"`
where extension substitution yields `"a.csv.json"`, and on `"out.txt"`
the code yields `"out.txt.json"` where extension substitution yields
`"out.json"`. -/
theorem auditPath_differs_from_extension_substitution :
    auditPath "a.csv.csv" = "a.json"
    ∧ replaceExtWithJson "a.csv.csv" = "a.csv.json"
    ∧ auditPath "a.csv.csv" ≠ replaceExtWithJson "a.csv.csv"
    ∧ auditPath "out.txt" = "out.txt.json"
    ∧ replaceExtWithJson "out.txt" = "out.json" := by
  refine ⟨rfl, rfl, ?_, rfl, rfl⟩
  decide

/-- Claim C5 (amended): the audit path is the CSV path with every
occurrence of `".csv"` removed and `".json"` appended; for a path made of
a stem containing no `".csv"` occurrence followed by the `".csv"`
extension, this coincides with substituting the extension. -/
theorem auditPath_strips_all_csv_occurrences (stem : List Char)
    (h : hasCsv stem = false) :
    auditPath (String.mk (stem ++ ['.', 'c', 's', 'v']))
      = String.mk stem ++ ".json" := by
  unfold auditPath
  rw [show (String.mk (stem ++ ['.', 'c', 's', 'v'])).data
        = stem ++ ['.', 'c', 's', 'v'] from rfl,
     dropCsv_append_csv stem h]

theorem auditPath_strips_all_csv_occurrences_witness :
    auditPath (String.mk (['o', 'u', 't'] ++ ['.', 'c', 's', 'v']))
      = String.mk ['o', 'u', 't'] ++ ".json" :=
  auditPath_strips_all_csv_occurrences ['o', 'u', 't'] (by decide)

/-- Claim C6 (counterexample): on a response carrying the coordinates
under a top-level key `position`, `transform` fails looking for
`iss_position` — it does not read a `position` object. -/
theorem transform_ignores_position_key :
    transform positionRaw = .error (.missing "iss_position")
    ∧ positionRaw.getPath2 "position" "latitude" = some (.str "10.00") :=
  ⟨rfl, rfl⟩

/-- Claim C6 (amended): the transformer extracts latitude and longitude
from the nested top-level object named `iss_position` (not `position`);
the other top-level keys it reads are `timestamp` and `message`, and a
response lacking `iss_position` (with `timestamp` present) fails with
exactly that missing key. -/
theorem transform_reads_iss_position (raw : Json) (t : Nat)
    (pos lat lon msg : Json)
    (hts : raw.get? "timestamp" = some (.num t))
    (hip : raw.get? "iss_position" = some pos)
    (hlat : pos.get? "latitude" = some lat)
    (hlon : pos.get? "longitude" = some lon)
    (hmsg : raw.get? "message" = some msg) :
    transform raw = .ok ⟨epochToDateTime t, lat, lon, msg⟩
    ∧ ∀ raw' : Json, Json.get? raw' "timestamp" ≠ none →
        Json.get? raw' "iss_position" = none →
        transform raw' = .error (.missing "iss_position") := by
  constructor
  · simp [transform, hts, hip, hlat, hlon, hmsg]
  · intro raw' hts' hip'
    rcases h : raw'.get? "timestamp" with _ | ts'
    · exact absurd h hts'
    · simp [transform, h, hip']

theorem transform_reads_iss_position_witness :
    transform exampleRaw
      = .ok ⟨epochToDateTime 1609459200, .str "10.00", .str "20.00",
             .str "success"⟩ :=
  (transform_reads_iss_position exampleRaw 1609459200 _ _ _ _
    rfl rfl rfl rfl rfl).1

/-- Claim C7: `main` exits with status 0 exactly when the output-path
argument is present, extraction returns data, and the transform succeeds;
it exits with status 1 — without running transform or load — when the
argument is missing or when extraction fails. -/
theorem mainRun_exit_codes (argv : List String) (net : NetOutcome) :
    ((mainRun argv net).exitCode = 0 ↔
      2 ≤ argv.length
        ∧ ∃ raw rec, (extract net).1 = some raw ∧ transform raw = .ok rec)
    ∧ (argv.length < 2 → mainRun argv net = ⟨1, false, false⟩)
    ∧ (2 ≤ argv.length → (extract net).1 = none
        → mainRun argv net = ⟨1, false, false⟩) := by
  rcases argv with _ | ⟨a, _ | ⟨b, rest⟩⟩
  · simp [mainRun]
  · simp [mainRun]
  · rcases hx : (extract net).1 with _ | raw
    · simp [mainRun, hx]
    · rcases htr : transform raw with e | rec
      · simp [mainRun, hx, htr]
      · simp [mainRun, hx, htr]

theorem mainRun_exit_codes_witness :
    mainRun ["iss.py"] NetOutcome.connError = ⟨1, false, false⟩ :=
  (mainRun_exit_codes ["iss.py"] NetOutcome.connError).2.1 (by decide)

/-- Claim C8: appending one record to an existing file adds exactly one
line at the end and leaves every prior line unchanged. -/
theorem load_existing_appends_one_line (lines : List String)
    (r : FlatRecord) :
    load r (some lines) = lines ++ [rowString r]
    ∧ (load r (some lines)).length = lines.length + 1
    ∧ ∀ i, i < lines.length → (load r (some lines))[i]? = lines[i]? := by
  refine ⟨rfl, by simp [load], ?_⟩
  intro i hi
  simp [load, List.getElem?_append_left hi]

theorem load_existing_appends_one_line_witness :
    (load recA (some [header]))[0]? = [header][0]? :=
  (load_existing_appends_one_line [header] recA).2.2 0 (by decide)

/-- Claim C9: `transform` passes latitude, longitude and message through
unchanged, and on the end-to-end example the record renders to the CSV
row `2021-01-01 00:00:00,10.00,20.00,success`. -/
theorem transform_passthrough_fields (raw : Json) (t : Nat)
    (pos lat lon msg : Json)
    (hts : raw.get? "timestamp" = some (.num t))
    (hip : raw.get? "iss_position" = some pos)
    (hlat : pos.get? "latitude" = some lat)
    (hlon : pos.get? "longitude" = some lon)
    (hmsg : raw.get? "message" = some msg) :
    (∃ r, transform raw = .ok r
      ∧ r.latitude = lat ∧ r.longitude = lon ∧ r.message = msg)
    ∧ (∃ r, transform exampleRaw = .ok r
        ∧ r.latitude = .str "10.00" ∧ r.longitude = .str "20.00"
        ∧ r.message = .str "success"
        ∧ rowString r = "2021-01-01 00:00:00,10.00,20.00,success") := by
  refine ⟨⟨⟨epochToDateTime t, lat, lon, msg⟩, ?_, rfl, rfl, rfl⟩,
    ⟨exampleRec, rfl, rfl, rfl, rfl, rfl⟩⟩
  simp [transform, hts, hip, hlat, hlon, hmsg]

theorem transform_passthrough_fields_witness :
    ∃ r, transform exampleRaw = .ok r
      ∧ r.latitude = Json.str "10.00" ∧ r.longitude = Json.str "20.00"
      ∧ r.message = Json.str "success" :=
  (transform_passthrough_fields exampleRaw 1609459200 _ _ _ _
    rfl rfl rfl rfl rfl).1

/-- Claim C10: the transformer's output depends only on the four key
paths `timestamp`, `iss_position.latitude`, `iss_position.longitude` and
`message`: two responses agreeing on those four values yield the same
flat record (or both fail to yield one), whatever other keys they
carry. -/
theorem transform_depends_only_on_key_paths (r1 r2 : Json)
    (h1 : r1.get? "timestamp" = r2.get? "timestamp")
    (h2 : r1.getPath2 "iss_position" "latitude"
        = r2.getPath2 "iss_position" "latitude")
    (h3 : r1.getPath2 "iss_position" "longitude"
        = r2.getPath2 "iss_position" "longitude")
    (h4 : r1.get? "message" = r2.get? "message")
    (rec : FlatRecord) :
    transform r1 = .ok rec ↔ transform r2 = .ok rec := by
  rw [transform_ok_iff, transform_ok_iff, h1, h2, h3, h4]

theorem transform_depends_only_on_key_paths_witness :
    (transform exampleRawExtra = .ok exampleRec)
      ↔ (transform exampleRaw = .ok exampleRec) :=
  transform_depends_only_on_key_paths exampleRawExtra exampleRaw
    rfl rfl rfl rfl exampleRec

end ISS
